import Mathlib

/-!
Verification of the Mini-Alexa intent parser and reply orchestration
(`app.py`) against its specification.

The embedding works over `List Char`; the Python string operations
(`str.strip`, `str.lower`, substring `in`, `str.startswith`, slicing)
and the two `re.search` calls are modelled faithfully, including the
leftmost-match and backtracking (greedy/lazy) semantics of Python's
regex engine, restricted to the ASCII behaviour of `\s`, `\d`,
`IGNORECASE` and `str.strip` (the inputs of interest are ASCII).
-/

namespace MiniAlexa

/-- ASCII whitespace recognised by Python's `str.strip()` and `\s`. -/
def pyIsSpace (c : Char) : Bool :=
  c = ' ' || c = '\t' || c = '\n' || c = '\r' || c = '\x0b' || c = '\x0c'

/-- Python `str.strip()`: drop leading and trailing whitespace. -/
def pyStrip (l : List Char) : List Char :=
  ((l.dropWhile pyIsSpace).reverse.dropWhile pyIsSpace).reverse

/-- Python `str.lower()` (ASCII case folding). -/
def pyLower (l : List Char) : List Char :=
  l.map Char.toLower

/-- Python `needle in hay` substring test. -/
def inStr (needle hay : List Char) : Bool :=
  decide (needle <:+: hay)

/-- Case-insensitive comparison of single characters (ASCII `re.IGNORECASE`). -/
def lcEq (a b : Char) : Bool :=
  a.toLower = b.toLower

/-- Match a literal regex fragment case-insensitively; return the rest of
the input on success. -/
def matchLitCI : List Char → List Char → Option (List Char)
  | [], s => some s
  | _ :: _, [] => none
  | c :: cs, x :: xs => if lcEq c x then matchLitCI cs xs else none

/-- `\s*` with greedy backtracking: try consuming more whitespace first,
then hand the remainder to the continuation `k`. -/
def spaceStarGreedy (k : List Char → Option α) : List Char → Option α
  | [] => k []
  | x :: xs =>
    if pyIsSpace x then (spaceStarGreedy k xs) <|> k (x :: xs)
    else k (x :: xs)

/-- `\s+` with greedy backtracking. -/
def spacePlusGreedy (k : List Char → Option α) : List Char → Option α
  | [] => none
  | x :: xs => if pyIsSpace x then spaceStarGreedy k xs else none

/-- The tail `\s+on\s+youtube` of the play regex. -/
def p1afterCap (s : List Char) : Option Unit :=
  spacePlusGreedy (fun s1 =>
    match matchLitCI "on".data s1 with
    | none => none
    | some s2 =>
      spacePlusGreedy (fun s3 =>
        match matchLitCI "youtube".data s3 with
        | none => none
        | some _ => some ()) s2) s

/-- The lazy group `(.+?)` of the play regex: `cap` holds the (reversed)
characters captured so far; first try to match the rest of the pattern
here, and only extend the capture when that fails (`.` does not match a
newline). -/
def p1tail (cap : List Char) : List Char → Option (List Char)
  | [] =>
    if (p1afterCap []).isSome then some cap.reverse else none
  | x :: xs =>
    if (p1afterCap (x :: xs)).isSome then some cap.reverse
    else if x = '\n' then none
    else p1tail (x :: cap) xs

/-- Try to match `play\s+(.+?)\s+on\s+youtube` (IGNORECASE) at the head of
`s`; return the first capture group on success. -/
def matchPlayAt (s : List Char) : Option (List Char) :=
  match matchLitCI "play".data s with
  | none => none
  | some s1 =>
    spacePlusGreedy (fun s2 =>
      match s2 with
      | [] => none
      | x :: xs => if x = '\n' then none else p1tail [x] xs) s1

/-- `re.search(r"play\s+(.+?)\s+on\s+youtube", text, re.IGNORECASE)`:
leftmost match, returning capture group 1. -/
def searchPlayOnYoutube : List Char → Option (List Char)
  | [] => matchPlayAt []
  | x :: xs => matchPlayAt (x :: xs) <|> searchPlayOnYoutube xs

/-- `(\d+)` (greedy, with backtracking): pass the capture and the rest of
the input to the continuation, longest capture first. -/
def digitStarGreedy (acc : List Char) (k : List Char → List Char → Option α) :
    List Char → Option α
  | [] => k acc.reverse []
  | x :: xs =>
    if x.isDigit then (digitStarGreedy (x :: acc) k xs) <|> k acc.reverse (x :: xs)
    else k acc.reverse (x :: xs)

/-- `(\d+)` requires at least one digit. -/
def digitPlusGreedy (k : List Char → List Char → Option α) : List Char → Option α
  | [] => none
  | x :: xs => if x.isDigit then digitStarGreedy [x] k xs else none

/-- The tail `\s+to\s+(.+)` of the reminder regex: a final greedy `(.+)`
at the end of the pattern captures the longest non-empty newline-free
prefix of the remainder. -/
def p2afterMinutes (cap1 : List Char) (s : List Char) :
    Option (List Char × List Char) :=
  spacePlusGreedy (fun s1 =>
    match matchLitCI "to".data s1 with
    | none => none
    | some s2 =>
      spacePlusGreedy (fun s3 =>
        let cap2 := s3.takeWhile (fun c => c ≠ '\n')
        if cap2.isEmpty then none else some (cap1, cap2)) s2) s

/-- Try to match `remind me in (\d+)\s+minutes?\s+to\s+(.+)` (IGNORECASE)
at the head of `s`; return the two capture groups. -/
def matchRemindAt (s : List Char) : Option (List Char × List Char) :=
  match matchLitCI "remind me in ".data s with
  | none => none
  | some s1 =>
    digitPlusGreedy (fun cap1 s2 =>
      spacePlusGreedy (fun s3 =>
        match matchLitCI "minute".data s3 with
        | none => none
        | some s4 =>
          match s4 with
          | [] => p2afterMinutes cap1 []
          | c :: rest =>
            if lcEq 's' c then (p2afterMinutes cap1 rest) <|> p2afterMinutes cap1 (c :: rest)
            else p2afterMinutes cap1 (c :: rest)) s2) s1

/-- `re.search(r"remind me in (\d+)\s+minutes?\s+to\s+(.+)", text,
re.IGNORECASE)`: leftmost match, returning the two capture groups. -/
def searchRemind : List Char → Option (List Char × List Char)
  | [] => matchRemindAt []
  | x :: xs => matchRemindAt (x :: xs) <|> searchRemind xs

/-- Python `int()` on a non-empty string of decimal digits. -/
def digitsToNat (l : List Char) : Nat :=
  l.foldl (fun n c => 10 * n + (c.toNat - 48)) 0

/-- The structured action dictionaries returned by `parse_command`
(tag = the `"type"` key, plus the remaining keys). -/
inductive Action where
  | open_url (url : String) (message : String)
  | search_youtube (query : String) (message : String)
  | set_reminder (delay_minutes : Nat) (text : String) (message : String)
deriving DecidableEq, Repr

/-- The `"message"` entry of an action. -/
def Action.message : Action → String
  | .open_url _ m => m
  | .search_youtube _ m => m
  | .set_reminder _ _ m => m

/-- The reminder action built from the two reminder-regex captures. -/
def mkReminder (d t : List Char) : Action :=
  .set_reminder (digitsToNat d) (String.mk (pyStrip t))
    ("Okay, I’ll set a reminder in " ++ Nat.repr (digitsToNat d) ++ " minute(s) to "
      ++ String.mk (pyStrip t) ++ ". Keep this tab open so the alert can fire.")

/-- Body of `parse_command` after `text = user_text.strip()`; the Python
local `low = text.lower()` is inlined as `pyLower text`. -/
def parseText (text : List Char) : Option Action :=
  if inStr "open youtube".data (pyLower text) then
    some (.open_url "https://www.youtube.com/" "Opening YouTube in a new tab.")
  else if inStr "open google".data (pyLower text) then
    some (.open_url "https://www.google.com/" "Opening Google search.")
  else if inStr "open chatgpt".data (pyLower text) then
    some (.open_url "https://chatgpt.com/" "Opening ChatGPT.")
  else if inStr "open whatsapp".data (pyLower text) || inStr "open whatsapp web".data (pyLower text) then
    some (.open_url "https://web.whatsapp.com/" "Opening WhatsApp Web.")
  else if inStr "open chrome".data (pyLower text) then
    some (.open_url "https://www.google.com/"
      "I can’t open desktop apps directly, but I’ve opened Google in your browser.")
  else
    match searchPlayOnYoutube text with
    | some g =>
      some (.search_youtube (String.mk (pyStrip g))
        ("Searching YouTube for “" ++ String.mk (pyStrip g) ++ "”."))
    | none =>
      if "play ".data.isPrefixOf (pyLower text) then
        if String.mk (pyStrip (text.drop 5)) = "" then
          match searchRemind text with
          | some (d, t) => some (mkReminder d t)
          | none => none
        else
          some (.search_youtube (String.mk (pyStrip (text.drop 5)))
            ("Playing “" ++ String.mk (pyStrip (text.drop 5)) ++ "” on YouTube (search tab opened)."))
      else
        match searchRemind text with
        | some (d, t) => some (mkReminder d t)
        | none => none

/-- `parse_command(user_text)`: strip the input, then run the rule chain. -/
def parse_command (user_text : String) : Option Action :=
  parseText (pyStrip user_text.data)

/-- `parseText` with the dead `"open whatsapp web"` disjunct removed, as
described by the spec ("rule 4's check is redundant"); everything else is
verbatim `parseText`. -/
def parseText_alt (text : List Char) : Option Action :=
  if inStr "open youtube".data (pyLower text) then
    some (.open_url "https://www.youtube.com/" "Opening YouTube in a new tab.")
  else if inStr "open google".data (pyLower text) then
    some (.open_url "https://www.google.com/" "Opening Google search.")
  else if inStr "open chatgpt".data (pyLower text) then
    some (.open_url "https://chatgpt.com/" "Opening ChatGPT.")
  else if inStr "open whatsapp".data (pyLower text) then
    some (.open_url "https://web.whatsapp.com/" "Opening WhatsApp Web.")
  else if inStr "open chrome".data (pyLower text) then
    some (.open_url "https://www.google.com/"
      "I can’t open desktop apps directly, but I’ve opened Google in your browser.")
  else
    match searchPlayOnYoutube text with
    | some g =>
      some (.search_youtube (String.mk (pyStrip g))
        ("Searching YouTube for “" ++ String.mk (pyStrip g) ++ "”."))
    | none =>
      if "play ".data.isPrefixOf (pyLower text) then
        if String.mk (pyStrip (text.drop 5)) = "" then
          match searchRemind text with
          | some (d, t) => some (mkReminder d t)
          | none => none
        else
          some (.search_youtube (String.mk (pyStrip (text.drop 5)))
            ("Playing “" ++ String.mk (pyStrip (text.drop 5)) ++ "” on YouTube (search tab opened)."))
      else
        match searchRemind text with
        | some (d, t) => some (mkReminder d t)
        | none => none

/-- `parse_command` built on `parseText_alt`. -/
def parse_command_alt (user_text : String) : Option Action :=
  parseText_alt (pyStrip user_text.data)

/-- The fixed Hinglish fallback string returned when the Gemini call fails. -/
def fallbackReply : String :=
  "Yaar abhi mera AI brain connect nahi ho paa raha, thodi der baad try karo."

/-- The instructional prompt template built around the user text. -/
def mkPrompt (user_text : String) : String :=
  "You are a friendly virtual assistant inside a web app.\n"
    ++ "User is an Indian student / normal user.\n\n"
    ++ "LANGUAGE STYLE:\n"
    ++ "- Reply in Hinglish (mix of Hindi + simple English).\n"
    ++ "- Use Roman Hindi (no Devanagari script).\n"
    ++ "- Keep it very clear, casual and motivating.\n"
    ++ "- Avoid very heavy Hindi or Urdu words.\n"
    ++ "- Sound like a helpful friend, not a professor.\n\n"
    ++ "ANSWER RULES:\n"
    ++ "- Maximum 2 sentences. Keep it short.\n"
    ++ "- Give direct, practical answer.\n"
    ++ "- If user asks for definition/explanation, still keep it short.\n"
    ++ "- If user greets you, greet back in Hinglish.\n\n"
    ++ "User: " ++ user_text ++ "\n"
    ++ "Assistant (Hinglish, max 2 sentences):"

/-- `ask_gemini_short(user_text)`.  The effect of
`client.models.generate_content(...)` followed by `.text` is modelled by
the `generate` oracle: `Except.ok t` is a successful call returning text
`t`; `Except.error e` is any raised exception (network/auth/quota failure,
or a `None` response text).  The `try/except` block is the `match`: every
failure is swallowed and the fixed fallback string is returned. -/
def ask_gemini_short (generate : String → Except String String)
    (user_text : String) : String :=
  match generate (mkPrompt user_text) with
  | .ok t => String.mk (pyStrip t.data)
  | .error _ => fallbackReply

/-- Action metadata returned to the client: the parsed action after
`cmd.pop("message")`. -/
inductive ActionMeta where
  | open_url (url : String)
  | search_youtube (query : String)
  | set_reminder (delay_minutes : Nat) (text : String)
deriving DecidableEq, Repr

/-- `cmd.pop("message")`: drop the message, keep every other field. -/
def actionMeta : Action → ActionMeta
  | .open_url url _ => .open_url url
  | .search_youtube query _ => .search_youtube query
  | .set_reminder d t _ => .set_reminder d t

/-- The JSON body produced by the `/ask` route: a reply and an optional
action object. -/
structure ChatResponse where
  reply : String
  action : Option ActionMeta
deriving DecidableEq, Repr

/-- The fixed retry prompt for empty input. -/
def retryReply : String := "I didn’t catch that. Can you type or say it again?"

/-- Zero-padded two-digit decimal rendering used by `strftime`. -/
def pad2 (n : Nat) : String :=
  if n < 10 then "0" ++ Nat.repr n else Nat.repr n

/-- `datetime.now().strftime("%I:%M %p")` for a clock reading
`hour:minute` (24-hour input): 12-hour zero-padded hour, zero-padded
minute, and AM/PM. -/
def strftimeIMp (hour minute : Nat) : String :=
  pad2 (if hour % 12 = 0 then 12 else hour % 12) ++ ":" ++ pad2 minute
    ++ " " ++ (if hour < 12 then "AM" else "PM")

/-- `HH:MM AM/PM`: two digits, a colon, two digits, a space, `AM` or `PM`. -/
def isTimeFormat (s : String) : Bool :=
  match s.data with
  | [a, b, c, d, e, f, g, h] =>
    a.isDigit && b.isDigit && c = ':' && d.isDigit && e.isDigit
      && f = ' ' && (g = 'A' || g = 'P') && h = 'M'
  | _ => false

/-- The `/ask` route handler.  `message` is the `"message"` field of the
request body; `generate` is the Gemini oracle (see `ask_gemini_short`);
`hour`/`minute` are the local clock at `datetime.now()`.  Returns the
response body together with a flag recording whether the Gemini call
(line `answer = ask_gemini_short(user_message)`) was reached.  The Python
locals `user_message = message.strip()`, `lower = user_message.lower()`
and `answer` are inlined (note `lower` equals `pyLower (pyStrip
message.data)`, and lowering commutes with nothing here — it is applied
to the stripped text exactly as in the source). -/
def ask (message : String) (generate : String → Except String String)
    (hour minute : Nat) : ChatResponse × Bool :=
  if String.mk (pyStrip message.data) = "" then
    (⟨retryReply, none⟩, false)
  else
    match parse_command (String.mk (pyStrip message.data)) with
    | some cmd => (⟨cmd.message, some (actionMeta cmd)⟩, false)
    | none =>
      (⟨if inStr "time".data (pyLower (pyStrip message.data))
            && inStr "?".data (pyLower (pyStrip message.data)) then
          ask_gemini_short generate (String.mk (pyStrip message.data))
            ++ " (By the way, current local time is "
            ++ strftimeIMp hour minute ++ ".)"
        else ask_gemini_short generate (String.mk (pyStrip message.data)), none⟩, true)

example :
    ask "  " (fun _ => .ok "hi") 3 4 = (⟨retryReply, none⟩, false) := by decide

example :
    ask "open google" (fun _ => .ok "hi") 3 4 =
      (⟨"Opening Google search.", some (.open_url "https://www.google.com/")⟩, false) := by decide

example :
    ask "what time is it?" (fun _ => .error "boom") 13 7 =
      (⟨fallbackReply ++ " (By the way, current local time is 01:07 PM.)", none⟩, true) := by
  decide

example : parse_command "play shape of you on youtube" =
    some (.search_youtube "shape of you" "Searching YouTube for “shape of you”.") := by decide

example : parse_command "play lofi beats" =
    some (.search_youtube "lofi beats" "Playing “lofi beats” on YouTube (search tab opened).") := by
  decide

example : parse_command "remind me in 10 minutes to study" =
    some (.set_reminder 10 "study"
      "Okay, I’ll set a reminder in 10 minute(s) to study. Keep this tab open so the alert can fire.") := by
  decide

example : parse_command "  OPEN YouTube please " =
    some (.open_url "https://www.youtube.com/" "Opening YouTube in a new tab.") := by decide

example : parse_command "hello there" = none := by decide

example : parse_command "open youtube play a on youtube" =
    some (.open_url "https://www.youtube.com/" "Opening YouTube in a new tab.") := by decide

/-! ### Helper lemmas -/

lemma pyStrip_eq_rdropWhile (l : List Char) :
    pyStrip l = List.rdropWhile pyIsSpace (List.dropWhile pyIsSpace l) := rfl

lemma dropWhile_rdropWhile {α : Type} (p : α → Bool) (l : List α)
    (h : List.dropWhile p l = l) :
    List.dropWhile p (List.rdropWhile p l) = List.rdropWhile p l := by
  rcases hu : List.rdropWhile p l with _ | ⟨x, xs⟩
  · rfl
  · obtain ⟨t, ht⟩ := List.rdropWhile_prefix p l
    rw [hu] at ht
    subst ht
    have h0 := List.dropWhile_eq_self_iff.mp h
    have hx : ¬ p x := by simpa using h0 (by simp)
    simp [List.dropWhile_cons, hx]

/-- Python `strip` is idempotent. -/
lemma pyStrip_idem (l : List Char) : pyStrip (pyStrip l) = pyStrip l := by
  have h1 : List.dropWhile pyIsSpace (pyStrip l) = pyStrip l := by
    rw [pyStrip_eq_rdropWhile]
    exact dropWhile_rdropWhile _ _ (List.dropWhile_idempotent _ _)
  rw [pyStrip_eq_rdropWhile (pyStrip l), h1, pyStrip_eq_rdropWhile l]
  exact List.rdropWhile_idempotent _ _

/-- `parse_command` is unchanged by pre-stripping its input, because the
function strips it first thing. -/
lemma parse_command_strip (s : String) :
    parse_command (String.mk (pyStrip s.data)) = parse_command s := by
  unfold parse_command
  rw [show (String.mk (pyStrip s.data)).data = pyStrip s.data from rfl, pyStrip_idem]

lemma parseText_nil : parseText [] = none := by decide

/-- An occurrence of `"open whatsapp web"` contains `"open whatsapp"`. -/
lemma whatsapp_subsumed (l : List Char) (h : "open whatsapp web".data <:+: l) :
    "open whatsapp".data <:+: l := by
  obtain ⟨s, t, hst⟩ := h
  refine ⟨s, " web".data ++ t, ?_⟩
  rw [← hst, show "open whatsapp web".data = "open whatsapp".data ++ " web".data by decide]
  simp

/-- The second disjunct of the WhatsApp test is redundant. -/
lemma whatsapp_cond (l : List Char) :
    (inStr "open whatsapp".data l || inStr "open whatsapp web".data l) =
      inStr "open whatsapp".data l := by
  cases h : inStr "open whatsapp web".data l
  · simp [h]
  · have h1 : inStr "open whatsapp".data l = true := by
      unfold inStr at h ⊢
      exact decide_eq_true (whatsapp_subsumed l (of_decide_eq_true h))
    simp [h1]

/-! ### Claims -/

/-- C10: the parser is invariant under surrounding whitespace: for every
input string `s`, `parse_command s` is structurally identical to
`parse_command` of the stripped input, because the parser strips the
input before any rule is evaluated. -/
theorem C10_parser_strip_invariant (s : String) :
    parse_command s = parse_command (String.mk (pyStrip s.data)) :=
  (parse_command_strip s).symm

/-- C8: the second disjunct of the WhatsApp rule is dead: the condition
`"open whatsapp" in low or "open whatsapp web" in low` is equivalent to
its first disjunct alone, and the parser with the `"open whatsapp web"`
check removed is extensionally equal to the existing parser. -/
theorem C8_whatsapp_disjunct_dead :
    (∀ low : List Char,
      (inStr "open whatsapp".data low || inStr "open whatsapp web".data low)
        = inStr "open whatsapp".data low)
    ∧ ∀ s : String, parse_command_alt s = parse_command s := by
  refine ⟨whatsapp_cond, fun s => ?_⟩
  unfold parse_command_alt parse_command parseText_alt parseText
  rw [whatsapp_cond]

/-- C5: the Reply Service wrapper never surfaces a failure: whenever the
underlying model call raises (the oracle returns `Except.error`),
`ask_gemini_short` returns the fixed Hinglish apology fallback string, so
the caller always receives a string. -/
theorem C5_gemini_failure_swallowed (generate : String → Except String String)
    (user_text : String) (e : String)
    (h : generate (mkPrompt user_text) = Except.error e) :
    ask_gemini_short generate user_text = fallbackReply := by
  unfold ask_gemini_short
  rw [h]

theorem C5_gemini_failure_swallowed_witness :
    ask_gemini_short (fun _ => Except.error "quota exceeded") "hello" = fallbackReply :=
  C5_gemini_failure_swallowed (fun _ => Except.error "quota exceeded") "hello"
    "quota exceeded" rfl

/-- C4: for every message that strips to empty, `ask` returns the fixed
retry-prompt reply with no action, and the Gemini call is never reached
(the call flag is `false` and the result does not depend on the oracle). -/
theorem C4_empty_message_short_circuit (message : String)
    (generate : String → Except String String) (hour minute : Nat)
    (h : pyStrip message.data = []) :
    ask message generate hour minute = (⟨retryReply, none⟩, false) := by
  unfold ask
  rw [h]
  rfl

theorem C4_empty_message_short_circuit_witness :
    ask " \t " (fun _ => Except.ok "hi") 3 4 = (⟨retryReply, none⟩, false) :=
  C4_empty_message_short_circuit " \t " (fun _ => Except.ok "hi") 3 4 (by decide)

/-- C1, counterexample to the claim as stated: the text of
`"open youtube play a on youtube"` matches the play regex (capture `"a"`),
yet the parser returns the rule-1 `open_url` action, not `SearchVideo`,
because the `"open youtube"` substring rule fires first. -/
theorem C1_counterexample :
    searchPlayOnYoutube (pyStrip ("open youtube play a on youtube").data) = some "a".data
    ∧ parse_command "open youtube play a on youtube"
        = some (Action.open_url "https://www.youtube.com/" "Opening YouTube in a new tab.") := by
  decide

/-- C1 (amended: provided none of the earlier `open`-site substring rules
1–5 matched): if the text matches the play regex the parser returns
`SearchVideo` with the trimmed first capture as query — such an input
never falls through to the bare `"play "` rule — and if the regex does
not match but the lowercased text starts with `"play "` and the trimmed
remainder after the 5-character prefix is non-empty, the parser returns
`SearchVideo` with that trimmed remainder. -/
theorem C1_play_rules (s : String)
    (h1 : inStr "open youtube".data (pyLower (pyStrip s.data)) = false)
    (h2 : inStr "open google".data (pyLower (pyStrip s.data)) = false)
    (h3 : inStr "open chatgpt".data (pyLower (pyStrip s.data)) = false)
    (h4 : inStr "open whatsapp".data (pyLower (pyStrip s.data)) = false)
    (h5 : inStr "open chrome".data (pyLower (pyStrip s.data)) = false) :
    (∀ g, searchPlayOnYoutube (pyStrip s.data) = some g →
      parse_command s = some (Action.search_youtube (String.mk (pyStrip g))
        ("Searching YouTube for “" ++ String.mk (pyStrip g) ++ "”.")))
    ∧ (searchPlayOnYoutube (pyStrip s.data) = none →
      "play ".data.isPrefixOf (pyLower (pyStrip s.data)) = true →
      String.mk (pyStrip ((pyStrip s.data).drop 5)) ≠ "" →
      parse_command s = some (Action.search_youtube
        (String.mk (pyStrip ((pyStrip s.data).drop 5)))
        ("Playing “" ++ String.mk (pyStrip ((pyStrip s.data).drop 5))
          ++ "” on YouTube (search tab opened).") )) := by
  constructor
  · intro g hg
    unfold parse_command parseText
    rw [h1, h2, h3, whatsapp_cond, h4, h5, hg]
    rfl
  · intro hnone hpre hne
    unfold parse_command parseText
    rw [h1, h2, h3, whatsapp_cond, h4, h5, hnone, hpre, if_neg hne]
    rfl

theorem C1_play_rules_witness :
    parse_command "play shape of you on youtube"
      = some (Action.search_youtube (String.mk (pyStrip "shape of you".data))
          ("Searching YouTube for “" ++ String.mk (pyStrip "shape of you".data) ++ "”.")) :=
  (C1_play_rules "play shape of you on youtube" (by decide) (by decide) (by decide)
    (by decide) (by decide)).1 "shape of you".data (by decide)

/-- C2: if no earlier rule matched (no `open`-site substring rule, the
play regex did not match, and the bare `"play "` rule did not produce a
non-empty query) and the text matches the reminder regex, the parser
returns `SetReminder` with `delay_minutes` the decimal integer parsed
from the first capture and `text` the second capture trimmed. -/
theorem C2_reminder_rule (s : String)
    (h1 : inStr "open youtube".data (pyLower (pyStrip s.data)) = false)
    (h2 : inStr "open google".data (pyLower (pyStrip s.data)) = false)
    (h3 : inStr "open chatgpt".data (pyLower (pyStrip s.data)) = false)
    (h4 : inStr "open whatsapp".data (pyLower (pyStrip s.data)) = false)
    (h5 : inStr "open chrome".data (pyLower (pyStrip s.data)) = false)
    (hplay : searchPlayOnYoutube (pyStrip s.data) = none)
    (hbare : "play ".data.isPrefixOf (pyLower (pyStrip s.data)) = false
      ∨ String.mk (pyStrip ((pyStrip s.data).drop 5)) = "") :
    ∀ d t, searchRemind (pyStrip s.data) = some (d, t) →
      parse_command s = some (Action.set_reminder (digitsToNat d) (String.mk (pyStrip t))
        ("Okay, I’ll set a reminder in " ++ Nat.repr (digitsToNat d) ++ " minute(s) to "
          ++ String.mk (pyStrip t) ++ ". Keep this tab open so the alert can fire.")) := by
  intro d t hr
  unfold parse_command parseText
  rw [h1, h2, h3, whatsapp_cond, h4, h5, hplay]
  rcases hbare with hp | hq
  · rw [hp, hr]
    rfl
  · cases hp2 : "play ".data.isPrefixOf (pyLower (pyStrip s.data))
    · rw [hr]
      rfl
    · rw [if_pos hq, hr]
      rfl

/-- For every in-range clock reading, `strftime("%I:%M %p")` produces a
string of shape `HH:MM AM/PM`. -/
lemma strftime_format_all :
    ∀ h, h < 24 → ∀ m, m < 60 → isTimeFormat (strftimeIMp h m) = true := by
  decide

/-- C3: per request, exactly one of a matched action and a generated
reply: the `action` field is present iff the parser matched; the Gemini
call is reached iff the parser did not match and the input was non-empty
(so empty input short-circuits with neither an action nor a Gemini
call); and when an action is present the reply is its message. -/
theorem C3_exactly_one_of (message : String) (generate : String → Except String String)
    (hour minute : Nat) :
    ((ask message generate hour minute).1.action.isSome = (parse_command message).isSome)
    ∧ ((ask message generate hour minute).2
        = (!(parse_command message).isSome && !(pyStrip message.data).isEmpty))
    ∧ (∀ a : Action, parse_command message = some a →
        (ask message generate hour minute).1.reply = a.message) := by
  by_cases he : String.mk (pyStrip message.data) = ""
  · have hnil : pyStrip message.data = [] := congrArg String.data he
    have hpn : parse_command message = none := by
      unfold parse_command
      rw [hnil]
      exact parseText_nil
    unfold ask
    rw [if_pos he, hpn, hnil]
    refine ⟨rfl, rfl, ?_⟩
    intro a ha
    exact Option.noConfusion ha
  · cases hp : parse_command (String.mk (pyStrip message.data)) with
    | none =>
      have hpm : parse_command message = none := by
        rw [← parse_command_strip message]
        exact hp
      have hemp : (pyStrip message.data).isEmpty = false := by
        cases hps : pyStrip message.data with
        | nil => exact absurd (by rw [hps]) he
        | cons x xs => rfl
      unfold ask
      rw [if_neg he, hp, hpm, hemp]
      refine ⟨rfl, rfl, ?_⟩
      intro a ha
      exact Option.noConfusion ha
    | some a0 =>
      have hpm : parse_command message = some a0 := by
        rw [← parse_command_strip message]
        exact hp
      unfold ask
      rw [if_neg he, hp, hpm]
      refine ⟨rfl, rfl, ?_⟩
      intro a ha
      obtain rfl := Option.some.inj ha
      rfl

theorem C3_exactly_one_of_witness :
    (ask "open google" (fun _ => Except.ok "hi") 1 2).1.reply
      = (Action.open_url "https://www.google.com/" "Opening Google search.").message :=
  (C3_exactly_one_of "open google" (fun _ => Except.ok "hi") 1 2).2.2
    (Action.open_url "https://www.google.com/" "Opening Google search.") (by decide)

/-- C6: when the parser returns an action, the response's reply is the
action's message, and the response's action metadata is the action with
exactly the `message` field removed (`actionMeta` keeps `url`, `query`,
`delay_minutes` and `text` unchanged across the three shapes). -/
theorem C6_action_metadata (message : String) (generate : String → Except String String)
    (hour minute : Nat) (a : Action)
    (h : parse_command message = some a) :
    (ask message generate hour minute).1.reply = a.message
    ∧ (ask message generate hour minute).1.action = some (actionMeta a) := by
  have he : ¬ (String.mk (pyStrip message.data) = "") := by
    intro he0
    have hnil : pyStrip message.data = [] := congrArg String.data he0
    rw [show parse_command message = parseText (pyStrip message.data) from rfl, hnil,
      parseText_nil] at h
    exact Option.noConfusion h
  have hp : parse_command (String.mk (pyStrip message.data)) = some a := by
    rw [parse_command_strip]
    exact h
  unfold ask
  rw [if_neg he, hp]
  exact ⟨rfl, rfl⟩

theorem C6_action_metadata_witness :
    (ask "remind me in 2 minutes to stretch" (fun _ => Except.ok "x") 5 6).1.reply
        = (Action.set_reminder 2 "stretch"
            "Okay, I’ll set a reminder in 2 minute(s) to stretch. Keep this tab open so the alert can fire.").message
    ∧ (ask "remind me in 2 minutes to stretch" (fun _ => Except.ok "x") 5 6).1.action
        = some (actionMeta (Action.set_reminder 2 "stretch"
            "Okay, I’ll set a reminder in 2 minute(s) to stretch. Keep this tab open so the alert can fire.")) :=
  C6_action_metadata "remind me in 2 minutes to stretch" (fun _ => Except.ok "x") 5 6
    (Action.set_reminder 2 "stretch"
      "Okay, I’ll set a reminder in 2 minute(s) to stretch. Keep this tab open so the alert can fire.")
    (by decide)

/-- C7: when no command matched and the input is non-empty, the reply is
the Gemini output with the parenthetical local-time suffix appended
exactly when the lowercased message contains both `"time"` and `"?"`,
and the Gemini output unmodified otherwise; for every in-range clock the
appended time string has 12-hour `HH:MM AM/PM` shape. -/
theorem C7_time_postprocess (message : String) (generate : String → Except String String)
    (hour minute : Nat)
    (hne : pyStrip message.data ≠ [])
    (hnone : parse_command message = none) :
    ((inStr "time".data (pyLower (pyStrip message.data))
        && inStr "?".data (pyLower (pyStrip message.data))) = true →
      (ask message generate hour minute).1.reply
        = ask_gemini_short generate (String.mk (pyStrip message.data))
            ++ " (By the way, current local time is " ++ strftimeIMp hour minute ++ ".)")
    ∧ ((inStr "time".data (pyLower (pyStrip message.data))
        && inStr "?".data (pyLower (pyStrip message.data))) = false →
      (ask message generate hour minute).1.reply
        = ask_gemini_short generate (String.mk (pyStrip message.data)))
    ∧ (hour < 24 → minute < 60 → isTimeFormat (strftimeIMp hour minute) = true) := by
  have he : ¬ (String.mk (pyStrip message.data) = "") := by
    intro he0
    exact hne (congrArg String.data he0)
  have hp : parse_command (String.mk (pyStrip message.data)) = none := by
    rw [parse_command_strip]
    exact hnone
  refine ⟨?_, ?_, fun hh hm => strftime_format_all hour hh minute hm⟩
  · intro hcond
    unfold ask
    rw [if_neg he, hp, hcond]
    rfl
  · intro hcond
    unfold ask
    rw [if_neg he, hp, hcond]
    rfl

theorem C7_time_postprocess_witness :
    (ask "what time is it?" (fun _ => Except.error "down") 13 7).1.reply
      = ask_gemini_short (fun _ => Except.error "down")
          (String.mk (pyStrip "what time is it?".data))
        ++ " (By the way, current local time is " ++ strftimeIMp 13 7 ++ ".)"
    ∧ isTimeFormat (strftimeIMp 13 7) = true :=
  ⟨(C7_time_postprocess "what time is it?" (fun _ => Except.error "down") 13 7
      (by decide) (by decide)).1 (by decide),
   (C7_time_postprocess "what time is it?" (fun _ => Except.error "down") 13 7
      (by decide) (by decide)).2.2 (by decide) (by decide)⟩

/-- The concrete instance required by C2:
`"remind me in 10 minutes to study"` yields delay 10 and text `"study"`. -/
theorem C2_reminder_rule_witness :
    parse_command "remind me in 10 minutes to study"
      = some (Action.set_reminder 10 "study"
          "Okay, I’ll set a reminder in 10 minute(s) to study. Keep this tab open so the alert can fire.") := by
  have h := C2_reminder_rule "remind me in 10 minutes to study" (by decide) (by decide)
    (by decide) (by decide) (by decide) (by decide) (Or.inl (by decide))
    "10".data "study".data (by decide)
  rw [h]
  decide

end MiniAlexa
